import Mathlib

/-!
Shallow embedding of the xhs-download-bot repository (Go) and verification of
its specification claims.

The repository has three Go variants of the same bot:
* the file embedded in `src/Dockerfile` (command variant: `gallery-dl` with an
  `HTTP_PROXY` proxy, plus `runDownloadWithRetry`),
* `src/main.go` (HTTP-backend variant without URL extraction loop),
* `src/unnamed/part_000` (HTTP-backend variant with `extractUrls`).

All three share: the checkpoint file `last_update_id.txt` written with
`fmt.Sprintf("%d", v)` and read with `fmt.Sscanf(data, "%d", &v)`, a
`getUpdates` long poll with `offset = lastUpdateID + 1`, and the URL regex
`https?://[^\s，]+`.

Strings are modelled as Lean `String`/`List Char`; Go `int64` values are
modelled as `Int` (no theorem below approaches the 2^63 boundary); fallible
operations return `Option`/`Except`; external effects (the download mechanism,
the messaging API) are oracles passed as function arguments, and observable
side effects (notifications, sleeps, log lines) are collected in event traces.
-/

namespace XhsBot

/-! ### Decimal formatting (`fmt.Sprintf("%d", v)`) -/

/-- The ASCII character of a decimal digit `d < 10`. -/
def digitChar (d : Nat) : Char := Char.ofNat (48 + d)

/-- Big-endian decimal digit characters of `n`, with explicit fuel so that the
definition is structurally recursive (fuel `n + 1` always suffices, since a
number has at most `n + 1` decimal digits). -/
def natToDigitsAux : Nat → Nat → List Char
  | 0, _ => []
  | fuel + 1, n =>
    if n < 10 then [digitChar n]
    else natToDigitsAux fuel (n / 10) ++ [digitChar (n % 10)]

/-- Decimal rendering of a natural number, as produced by Go's `%d` verb. -/
def goSprintfNat (n : Nat) : String := ⟨natToDigitsAux (n + 1) n⟩

/-- Decimal rendering of an `int64`, as produced by Go's `%d` verb
(`fmt.Sprintf("%d", v)`). -/
def goSprintfInt (v : Int) : String :=
  if v < 0 then ⟨'-' :: natToDigitsAux ((-v).toNat + 1) (-v).toNat⟩
  else goSprintfNat v.toNat

/-! ### Decimal scanning (`fmt.Sscanf(data, "%d", &v)`) -/

/-- Whether a character is an ASCII decimal digit. -/
def isGoDigit (c : Char) : Bool := 48 ≤ c.toNat && c.toNat ≤ 57

/-- Accumulate the value of a big-endian run of digit characters. -/
def digitsVal (cs : List Char) : Nat :=
  cs.foldl (fun a c => 10 * a + (c.toNat - 48)) 0

/-- Read a maximal nonempty leading run of decimal digits, as Go's `%d` verb
does after the optional sign; no digit at all is a scan error. -/
def parseDigits (cs : List Char) : Option Nat :=
  let ds := cs.takeWhile isGoDigit
  if ds.isEmpty then none else some (digitsVal ds)

/-- Leading blank-skipping performed by `fmt.Sscanf` before the `%d` verb
(spaces and tabs; a leading newline is a scan error in Go and is therefore not
skipped here, where it simply fails to scan as a digit). -/
def skipSpaces : List Char → List Char
  | [] => []
  | c :: rest => if c = ' ' ∨ c = '\t' then skipSpaces rest else c :: rest

/-- Model of `fmt.Sscanf(s, "%d", &v)`: skip leading blanks, read an optionally
signed decimal integer; `none` is the scan-error case. Trailing input after
the digits is ignored, as with Go's `Sscanf`. -/
def sscanfInt (s : String) : Option Int :=
  match skipSpaces s.data with
  | [] => none
  | c :: rest =>
    if c = '-' then (parseDigits rest).map (fun n => -(n : Int))
    else if c = '+' then (parseDigits rest).map (fun n => (n : Int))
    else (parseDigits (c :: rest)).map (fun n => (n : Int))

/-! ### The offset store (`last_update_id.txt`) -/

/-- The observable state of the checkpoint file for one read: absent, present
but unreadable (`os.ReadFile` fails), or present with the given content. -/
inductive FileState
  | missing
  | unreadable
  | content (data : String)
deriving DecidableEq

/-- `getLastUpdateID` (identical in all three variants): a missing file and a
read error both yield update ID 0 with a nil error; a file whose content does
not scan as a decimal integer yields the `Sscanf` error (Go returns `(0, err)`;
the caller only looks at the error, modelled as `Except.error ()`). -/
def getLastUpdateID : FileState → Except Unit Int
  | .missing => .ok 0
  | .unreadable => .ok 0
  | .content data =>
    match sscanfInt data with
    | some v => .ok v
    | none => .error ()

/-- `saveLastUpdateID`: `os.WriteFile` of `fmt.Sprintf("%d", lastUpdateID)`;
the resulting file state on a successful write. -/
def saveLastUpdateID (lastUpdateID : Int) : FileState :=
  .content (goSprintfInt lastUpdateID)

/-- Whether `main` reaches its polling loop: it calls `getLastUpdateID` and
invokes `log.Fatalf` (process exit) when that returns an error. -/
def startupReachesLoop (fs : FileState) : Bool :=
  match getLastUpdateID fs with
  | .ok _ => true
  | .error _ => false

/-! ### The URL regex `https?://[^\s，]+` (`urlRegex` / `re`)

RE2 semantics for this particular pattern: scan left to right for the leftmost
position where `http://` or `https://` is followed by at least one character
that is neither ASCII whitespace (`\s` = tab, newline, form feed, carriage
return, space) nor the full-width comma `，` (U+FF0C); the match extends
greedily over such characters; `FindAllString(s, -1)` then continues scanning
after the end of the match. Note the ASCII comma `,` is NOT excluded by the
character class and so is matched as part of a URL. -/

/-- Characters that terminate a URL match: RE2's `\s` class plus `，`. -/
def isMatchTerm (c : Char) : Bool :=
  c = ' ' || c = '\t' || c = '\n' || c = Char.ofNat 12 || c = '\r' || c = '，'

/-- The characters of the literal `http://`. -/
def schemeHttp : List Char := ['h', 't', 't', 'p', ':', '/', '/']

/-- The characters of the literal `https://`. -/
def schemeHttps : List Char := ['h', 't', 't', 'p', 's', ':', '/', '/']

/-- Try to match `https?://[^\s，]+` anchored at the head of `cs`; on success
return the matched characters and the remainder of the input. `https` is tried
first; the two scheme alternatives can never both apply at one position. -/
def matchUrlAt (cs : List Char) : Option (List Char × List Char) :=
  if cs.take 8 = schemeHttps then
    let after := cs.drop 8
    let body := after.takeWhile (fun c => !isMatchTerm c)
    if body.isEmpty then none
    else some (schemeHttps ++ body, after.dropWhile (fun c => !isMatchTerm c))
  else if cs.take 7 = schemeHttp then
    let after := cs.drop 7
    let body := after.takeWhile (fun c => !isMatchTerm c)
    if body.isEmpty then none
    else some (schemeHttp ++ body, after.dropWhile (fun c => !isMatchTerm c))
  else none

/-- Scan for all non-overlapping leftmost matches, resuming after each match
(`FindAllString(s, -1)`). Structural fuel: every step consumes at least one
character, so fuel equal to the input length suffices and the fuel-exhausted
branch is unreachable from `findAllUrls`. -/
def findAllUrlsAux : Nat → List Char → List (List Char)
  | 0, _ => []
  | fuel + 1, cs =>
    match cs with
    | [] => []
    | c :: rest =>
      match matchUrlAt (c :: rest) with
      | some (m, r) => m :: findAllUrlsAux fuel r
      | none => findAllUrlsAux fuel rest

/-- `urlRegex.FindAllString(message, -1)` (also `re.FindAllString` in
`src/main.go`), as a list of strings. -/
def findAllUrlStrings (message : String) : List String :=
  (findAllUrlsAux message.data.length message.data).map fun cs => ⟨cs⟩

/-- `extractUrls` from `src/unnamed/part_000`: all regex matches in order. -/
def extractUrls (message : String) : List String :=
  findAllUrlStrings message

/-- `getUrl` from `src/main.go`: the first regex match, or the whole message
when there is none. -/
def getUrl (message : String) : String :=
  match findAllUrlStrings message with
  | [] => message
  | u :: _ => u

/-! ### Telegram data model -/

/-- The `Message` JSON structure: `Chat.ID` and `Text`. -/
structure Message where
  chatID : Int
  text : String
deriving DecidableEq

/-- The `Update` JSON structure: `UpdateID` and an optional (`*Message`,
possibly nil) `Message`. -/
structure Update where
  updateID : Int
  message : Option Message
deriving DecidableEq

/-- The URL built by `getUpdates`:
`fmt.Sprintf(".../bot%s/getUpdates?offset=%d&timeout=30", token, lastUpdateID+1)`. -/
def getUpdatesURL (token : String) (lastUpdateID : Int) : String :=
  "https://api.telegram.org/bot" ++ token ++ "/getUpdates?offset=" ++
    goSprintfInt (lastUpdateID + 1) ++ "&timeout=30"

/-- The offset query parameter sent by `getUpdates`. -/
def getUpdatesOffset (lastUpdateID : Int) : Int := lastUpdateID + 1

/-! ### The command-variant download executor (`src/Dockerfile` file) -/

/-- The configuration read from the environment by the command variant:
`TELEGRAM_BOT_TOKEN`, `BACKEND_URL`, `HTTP_PROXY`; an unset variable is the
empty string, as with `os.Getenv`. -/
structure CmdConfig where
  telegramBotToken : String
  backendURL : String
  httpProxy : String
deriving DecidableEq

/-- The startup check of the command variant's `main`:
`log.Fatal` (process exit) iff the token or the backend URL is empty. The
proxy is not consulted here. -/
def startupFatalCmd (c : CmdConfig) : Bool :=
  c.telegramBotToken = "" || c.backendURL = ""

/-- `download` of the command variant: first checks `HTTP_PROXY` and errors if
it is unset, then runs `gallery-dl --proxy <proxy> <url>`; `runner proxy url`
is the oracle for the external command's outcome (`some e` = failure `e`), and
a non-nil `cmd.Run` error is wrapped as `failed to run gallery-dl: <e>`. -/
def downloadCmd (c : CmdConfig) (runner : String → String → Option String)
    (downloadURL : String) : Option String :=
  if c.httpProxy = "" then some "HTTP_PROXY environment variable is not set"
  else (runner c.httpProxy downloadURL).map
    fun e => "failed to run gallery-dl: " ++ e

/-! ### The retrying dispatcher `runDownloadWithRetry` -/

/-- Observable events of one dispatcher run and of one main-loop batch:
a log line announcing attempt `k` (1-based), a `sendMessage` call, and a
`time.Sleep` of the given number of seconds. -/
inductive RetryEvent
  | attemptStart (k : Nat)
  | notify (chatID : Int) (text : String)
  | sleep (seconds : Nat)
deriving DecidableEq

/-- `maxRetries` constant of `runDownloadWithRetry`. -/
def maxRetries : Nat := 3

/-- Success notification text: `下载成功 (第 %d 次尝试): \nURL: %s`. -/
def successText (k : Nat) (url : String) : String :=
  "下载成功 (第 " ++ goSprintfNat k ++ " 次尝试): \nURL: " ++ url

/-- Retry notification text:
`下载失败 (第 %d 次尝试，重试中...): \nURL: %s\n错误: %v`. -/
def retryText (k : Nat) (url : String) (err : String) : String :=
  "下载失败 (第 " ++ goSprintfNat k ++ " 次尝试，重试中...): \nURL: " ++ url ++
    "\n错误: " ++ err

/-- How `%w` renders the wrapped `lastErr` in the final error (a nil `error`
would render as Go's nil-wrap placeholder; with `maxRetries = 3 > 0` the loop
always sets `lastErr` before exiting). -/
def goWrapErr : Option String → String
  | some e => e
  | none => "%!w(<nil>)"

/-- Final error text: `下载最终失败, 经过 %d 次尝试: %w`. -/
def finalErrText (k : Nat) (lastErr : Option String) : String :=
  "下载最终失败, 经过 " ++ goSprintfNat k ++ " 次尝试: " ++ goWrapErr lastErr

/-- The `for i := 0; i < maxRetries; i++` loop of `runDownloadWithRetry`,
translated with `remaining = maxRetries - i` as the structural measure and
carrying `lastErr`. `dl i` is the outcome oracle of attempt index `i`
(`none` = success). Returns the event trace and the function's return value
(`none` = nil error). -/
def retryLoop (dl : Nat → Option String) (url : String) (chatID : Int) :
    Nat → Nat → Option String → List RetryEvent × Option String
  | _, 0, lastErr => ([], some (finalErrText maxRetries lastErr))
  | i, remaining + 1, _ =>
    match dl i with
    | none =>
      ([.attemptStart (i + 1), .notify chatID (successText (i + 1) url)], none)
    | some e =>
      if i < maxRetries - 1 then
        let rest := retryLoop dl url chatID (i + 1) remaining (some e)
        (.attemptStart (i + 1) :: .notify chatID (retryText (i + 1) url e) ::
          .sleep 5 :: rest.1, rest.2)
      else
        let rest := retryLoop dl url chatID (i + 1) remaining (some e)
        (.attemptStart (i + 1) :: rest.1, rest.2)

/-- `runDownloadWithRetry(url, chatID)` with attempt-outcome oracle `dl`:
the trace of log/notify/sleep events and the returned error. -/
def runDownloadWithRetry (dl : Nat → Option String) (url : String)
    (chatID : Int) : List RetryEvent × Option String :=
  retryLoop dl url chatID 0 maxRetries none

/-- The number of download attempts performed in a trace. -/
def countAttempts (evs : List RetryEvent) : Nat :=
  evs.countP fun ev => match ev with | .attemptStart _ => true | _ => false

/-- The number of sleeps in a trace. -/
def countSleeps (evs : List RetryEvent) : Nat :=
  evs.countP fun ev => match ev with | .sleep _ => true | _ => false

/-! ### One iteration of the main loop (retry variant, `src/Dockerfile` file;
`src/unnamed/part_000` has the identical checkpoint discipline) -/

/-- Notification sent when a message contains no URL. -/
def noUrlText : String :=
  "消息中未找到任何可识别的 URL 地址，请确保链接以 http:// 或 https:// 开头。"

/-- Notification sent when `n` URLs were found: `发现 %d 个 URL，开始按顺序下载...`. -/
def foundText (n : Nat) : String :=
  "发现 " ++ goSprintfNat n ++ " 个 URL，开始按顺序下载..."

/-- Final-failure notification sent by the caller of `runDownloadWithRetry`:
`下载任务终止: \nURL: %s\n错误: %v`. -/
def terminatedText (url : String) (err : String) : String :=
  "下载任务终止: \nURL: " ++ url ++ "\n错误: " ++ err

/-- Processing of one non-nil message in the retry variant's main loop:
extract URLs, send the discovery (or none-found) notification, then dispatch
each URL in order through `runDownloadWithRetry`, notifying on final failure.
`dl url i` is the outcome oracle of attempt `i` on `url`. -/
def processMessage (dl : String → Nat → Option String) (chatID : Int)
    (messageText : String) : List RetryEvent :=
  let urlsToDownload := extractUrls messageText
  let header : RetryEvent :=
    if urlsToDownload.isEmpty then .notify chatID noUrlText
    else .notify chatID (foundText urlsToDownload.length)
  header :: urlsToDownload.foldl
    (fun evs url =>
      let r := runDownloadWithRetry (dl url) url chatID
      evs ++ r.1 ++
        match r.2 with
        | some e => [RetryEvent.notify chatID (terminatedText url e)]
        | none => [])
    []

/-- The per-update body of the retry variant's loop: process the message when
it is non-nil, then advance the in-memory checkpoint when the update's id
exceeds it. The accumulator pairs the event trace with `lastUpdateID`. -/
def processUpdateStep (dl : String → Nat → Option String)
    (acc : List RetryEvent × Int) (u : Update) : List RetryEvent × Int :=
  let evs :=
    match u.message with
    | some m => processMessage dl m.chatID m.text
    | none => []
  (acc.1 ++ evs,
    if u.updateID > acc.2 then u.updateID else acc.2)

/-- One full iteration of the main loop over a fetched batch: process every
update in order, then persist the checkpoint with `saveLastUpdateID`.
Returns the event trace, the new in-memory checkpoint, and the file state
written by the save. -/
def mainLoopIteration (dl : String → Nat → Option String) (lastUpdateID : Int)
    (updates : List Update) : List RetryEvent × Int × FileState :=
  let r := updates.foldl (processUpdateStep dl) ([], lastUpdateID)
  (r.1, r.2, saveLastUpdateID r.2)

/-! ### The `src/main.go` per-update step -/

/-- The per-update body of `src/main.go`'s loop: the nil guard only wraps the
log line; `download(update.Message.Text)` and the two `sendMessage` calls
dereference `update.Message` unconditionally, so an update whose message is
nil has no defined result (nil-pointer dereference), modelled as `none`.
`dl text` is the HTTP backend oracle (`some e` = failure). On a defined
result: the notification sent and the updated checkpoint. -/
def processUpdateMainGo (dl : String → Option String) (lastUpdateID : Int)
    (u : Update) : Option ((Int × String) × Int) :=
  match u.message with
  | none => none
  | some m =>
    let notif :=
      match dl m.text with
      | some e =>
        (m.chatID, "下载失败, url: " ++ getUrl m.text ++ ",err: " ++ e)
      | none => (m.chatID, "下载成功, url: " ++ getUrl m.text)
    some (notif, if u.updateID > lastUpdateID then u.updateID else lastUpdateID)

/-! ## Helper lemmas about decimal digits -/

theorem digitChar_toNat {d : Nat} (h : d < 10) : (digitChar d).toNat = 48 + d := by
  interval_cases d <;> rfl

theorem isGoDigit_digitChar {d : Nat} (h : d < 10) :
    isGoDigit (digitChar d) = true := by
  interval_cases d <;> rfl

theorem digitChar_not_special {d : Nat} (h : d < 10) :
    digitChar d ≠ '-' ∧ digitChar d ≠ '+' ∧ digitChar d ≠ ' ' ∧
      digitChar d ≠ '\t' := by
  interval_cases d <;> exact ⟨by decide, by decide, by decide, by decide⟩

theorem natToDigitsAux_spec : ∀ fuel n, n < fuel →
    natToDigitsAux fuel n ≠ [] ∧
      ∀ c ∈ natToDigitsAux fuel n, ∃ d, d < 10 ∧ c = digitChar d := by
  intro fuel
  induction fuel with
  | zero => intro n h; omega
  | succ fuel ih =>
    intro n hn
    by_cases h10 : n < 10
    · refine ⟨by simp [natToDigitsAux, h10], ?_⟩
      intro c hc
      simp [natToDigitsAux, h10] at hc
      exact ⟨n, h10, hc⟩
    · have hdiv : n / 10 < fuel := by
        have := Nat.div_lt_self (show 0 < n by omega) (show 1 < 10 by omega)
        omega
      obtain ⟨hne, hdig⟩ := ih (n / 10) hdiv
      refine ⟨by simp [natToDigitsAux, h10], ?_⟩
      intro c hc
      simp [natToDigitsAux, h10] at hc
      rcases hc with hc | hc
      · exact hdig c hc
      · exact ⟨n % 10, Nat.mod_lt n (by omega), hc⟩

theorem foldl_natToDigitsAux : ∀ fuel n, n < fuel → ∀ acc,
    (natToDigitsAux fuel n).foldl (fun a c => 10 * a + (c.toNat - 48)) acc =
      acc * 10 ^ (natToDigitsAux fuel n).length + n := by
  intro fuel
  induction fuel with
  | zero => intro n h; omega
  | succ fuel ih =>
    intro n hn acc
    by_cases h10 : n < 10
    · simp [natToDigitsAux, h10, digitChar_toNat h10]
      omega
    · have hdiv : n / 10 < fuel := by
        have := Nat.div_lt_self (show 0 < n by omega) (show 1 < 10 by omega)
        omega
      have hmod : n % 10 < 10 := Nat.mod_lt n (by omega)
      simp only [natToDigitsAux, if_neg h10, List.foldl_append, List.foldl_cons,
        List.foldl_nil, List.length_append, List.length_cons, List.length_nil]
      rw [ih _ hdiv acc, digitChar_toNat hmod]
      have hdm : 10 * (n / 10) + n % 10 = n := Nat.div_add_mod n 10
      calc 10 * (acc * 10 ^ (natToDigitsAux fuel (n / 10)).length + n / 10) +
            (48 + n % 10 - 48)
          = acc * (10 ^ (natToDigitsAux fuel (n / 10)).length * 10) +
              (10 * (n / 10) + n % 10) := by ring_nf; omega
        _ = acc * 10 ^ ((natToDigitsAux fuel (n / 10)).length + 1) + n := by
              rw [hdm, pow_succ]

theorem parseDigits_natToDigits (n : Nat) :
    parseDigits (natToDigitsAux (n + 1) n) = some n := by
  obtain ⟨hne, hdig⟩ := natToDigitsAux_spec (n + 1) n (Nat.lt_succ_self n)
  have hall : ∀ c ∈ natToDigitsAux (n + 1) n, isGoDigit c = true := by
    intro c hc
    obtain ⟨d, hd, rfl⟩ := hdig c hc
    exact isGoDigit_digitChar hd
  unfold parseDigits
  rw [List.takeWhile_eq_self_iff.mpr hall]
  rw [if_neg (by simpa [List.isEmpty_iff] using hne)]
  have := foldl_natToDigitsAux (n + 1) n (Nat.lt_succ_self n) 0
  simp only [digitsVal, this, Nat.zero_mul, Nat.zero_add]

theorem sscanfInt_goSprintfNat (n : Nat) :
    sscanfInt (goSprintfNat n) = some (n : Int) := by
  obtain ⟨hne, hdig⟩ := natToDigitsAux_spec (n + 1) n (Nat.lt_succ_self n)
  have hparse := parseDigits_natToDigits n
  cases hl : natToDigitsAux (n + 1) n with
  | nil => exact absurd hl hne
  | cons c cs =>
    obtain ⟨d, hd, hc⟩ := hdig c (hl ▸ List.mem_cons_self c cs)
    obtain ⟨hminus, hplus, hspace, htab⟩ := digitChar_not_special hd
    rw [hc] at hl
    have hsp : skipSpaces (digitChar d :: cs) = digitChar d :: cs := by
      unfold skipSpaces
      rw [if_neg]
      rintro (h | h)
      · exact hspace h
      · exact htab h
    unfold sscanfInt goSprintfNat
    show (match skipSpaces (natToDigitsAux (n + 1) n) with
      | [] => none
      | c :: rest =>
        if c = '-' then (parseDigits rest).map (fun n => -(n : Int))
        else if c = '+' then (parseDigits rest).map (fun n => (n : Int))
        else (parseDigits (c :: rest)).map (fun n => (n : Int))) = some (n : Int)
    rw [hl, hsp]
    simp only [if_neg hminus, if_neg hplus]
    rw [← hl, hparse]
    rfl

theorem sscanfInt_goSprintfInt {v : Int} (h : 0 ≤ v) :
    sscanfInt (goSprintfInt v) = some v := by
  unfold goSprintfInt
  rw [if_neg (by omega)]
  rw [sscanfInt_goSprintfNat]
  rw [Int.toNat_of_nonneg h]

/-! ## Claim theorems -/

/-- C3 counterexample: on the input
`check this out https://example.com/a,https://example.com/b thanks`, the URL
extractor does NOT return the two-element sequence claimed: the ASCII comma is
not excluded by the character class `[^\s，]` and is matched as part of the
URL, so the two links fuse into a single match. -/
theorem c3_counterexample :
    extractUrls
        "check this out https://example.com/a,https://example.com/b thanks" ≠
      ["https://example.com/a", "https://example.com/b"] := by
  decide

/-- C3 amended: on that input the extractor returns exactly the one-element
sequence holding the fused match
`https://example.com/a,https://example.com/b`; only whitespace and the
full-width comma terminate a match, the ASCII comma does not. -/
theorem c3_extract_fused_url :
    extractUrls
        "check this out https://example.com/a,https://example.com/b thanks" =
      ["https://example.com/a,https://example.com/b"] := by
  decide

/-- C4 counterexample: a checkpoint file that exists but does not scan as a
decimal integer makes `getLastUpdateID` return the `Sscanf` error, and `main`
then exits fatally instead of entering the main loop. -/
theorem c4_counterexample :
    getLastUpdateID (.content "garbage") = .error () ∧
      startupReachesLoop (.content "garbage") = false :=
  ⟨rfl, rfl⟩

/-- C4 amended: `load()` returns 0 and the program enters the main loop when
the checkpoint store is missing or unreadable; but when the file exists and
its content does not scan as a decimal integer, `load()` returns an error and
the program exits fatally before the main loop. -/
theorem c4_load_missing_or_unreadable :
    (getLastUpdateID .missing = .ok 0 ∧ startupReachesLoop .missing = true) ∧
    (getLastUpdateID .unreadable = .ok 0 ∧
      startupReachesLoop .unreadable = true) ∧
    ∀ data : String, sscanfInt data = none →
      getLastUpdateID (.content data) = .error () ∧
        startupReachesLoop (.content data) = false := by
  refine ⟨⟨rfl, rfl⟩, ⟨rfl, rfl⟩, ?_⟩
  intro data hdata
  constructor
  · simp only [getLastUpdateID, hdata]
  · simp only [startupReachesLoop, getLastUpdateID, hdata]

/-- C4 witness: the amended statement applied to the concrete unparseable
content `abc`. -/
theorem c4_witness :
    getLastUpdateID (.content "abc") = .error () ∧
      startupReachesLoop (.content "abc") = false :=
  c4_load_missing_or_unreadable.2.2 "abc" rfl

/-- C6: the save/load round-trip — for every checkpoint value `v ≥ 0`,
`getLastUpdateID` after a successful `saveLastUpdateID v` returns `v`: the
decimal text written by `fmt.Sprintf("%d", v)` is scanned back to the same
integer by `fmt.Sscanf(_, "%d", _)`. -/
theorem c6_save_load_roundtrip (v : Int) (h : 0 ≤ v) :
    getLastUpdateID (saveLastUpdateID v) = .ok v := by
  simp only [saveLastUpdateID, getLastUpdateID, sscanfInt_goSprintfInt h]

/-- C6 witness: the round-trip at the concrete checkpoint value 42. -/
theorem c6_witness : getLastUpdateID (saveLastUpdateID 42) = .ok 42 :=
  c6_save_load_roundtrip 42 (by decide)

/-- C8 counterexample: a configuration with a bot token and a backend URL but
no proxy passes the startup check (the process does not exit, the main loop is
entered), and the absent proxy is first detected inside the download path,
where it yields a per-download error — contradicting the claim that every
required value, the proxy included, is checked before the main loop starts. -/
theorem c8_counterexample :
    startupFatalCmd ⟨"token", "http://backend", ""⟩ = false ∧
      downloadCmd ⟨"token", "http://backend", ""⟩ (fun _ _ => none)
          "https://example.com/a" =
        some "HTTP_PROXY environment variable is not set" :=
  ⟨rfl, rfl⟩

/-- C8 amended: the command variant's startup check is fatal exactly when the
bot token or the backend URL is empty; the proxy URL is not consulted at
startup, and an empty proxy is instead detected inside `download` on every
invocation, producing a download error rather than a fatal startup exit. -/
theorem c8_config_checks (c : CmdConfig)
    (runner : String → String → Option String) (url : String) :
    (startupFatalCmd c = false ↔
      (c.telegramBotToken ≠ "" ∧ c.backendURL ≠ "")) ∧
    (c.httpProxy = "" →
      downloadCmd c runner url =
        some "HTTP_PROXY environment variable is not set") := by
  constructor
  · unfold startupFatalCmd
    simp [not_or]
  · intro hp
    unfold downloadCmd
    rw [if_pos hp]

/-- C8 witness: the amended statement applied to a concrete configuration with
an empty proxy. -/
theorem c8_witness :
    downloadCmd ⟨"tok", "http://b", ""⟩ (fun _ _ => some "ran") "https://u" =
      some "HTTP_PROXY environment variable is not set" :=
  (c8_config_checks ⟨"tok", "http://b", ""⟩ (fun _ _ => some "ran")
    "https://u").2 rfl

/-- C9: in the `src/main.go` variant the per-update step dereferences
`update.Message` outside the nil guard, so it has no defined result on an
update whose message is absent, while it is defined on every update with a
message present. -/
theorem c9_nil_message_not_total (dl : String → Option String)
    (lastUpdateID updateID : Int) :
    processUpdateMainGo dl lastUpdateID ⟨updateID, none⟩ = none ∧
      ∀ m : Message,
        (processUpdateMainGo dl lastUpdateID ⟨updateID, some m⟩).isSome =
          true :=
  ⟨rfl, fun _ => rfl⟩

/-- C10: `getUrl` in `src/main.go` returns the first regex match when there is
one and the entire message text when there is none; consequently the failure
notification for a URL-less message echoes the whole message text in the URL
position. -/
theorem c10_getUrl_first_or_whole (message : String) :
    (∀ u us, findAllUrlStrings message = u :: us → getUrl message = u) ∧
    (findAllUrlStrings message = [] → getUrl message = message) ∧
    (∀ (dl : String → Option String) (lastUpdateID chatID updateID : Int)
        (err : String),
      findAllUrlStrings message = [] →
      dl message = some err →
      processUpdateMainGo dl lastUpdateID
          ⟨updateID, some ⟨chatID, message⟩⟩ =
        some ((chatID, "下载失败, url: " ++ message ++ ",err: " ++ err),
          if updateID > lastUpdateID then updateID else lastUpdateID)) := by
  refine ⟨?_, ?_, ?_⟩
  · intro u us h
    unfold getUrl
    rw [h]
  · intro h
    unfold getUrl
    rw [h]
  · intro dl lastUpdateID chatID updateID err hnone hdl
    have hg : getUrl message = message := by unfold getUrl; rw [hnone]
    simp only [processUpdateMainGo, hdl, hg]

/-- C10 witness: applied to the concrete URL-less message `no links here` with
a failing backend. -/
theorem c10_witness :
    processUpdateMainGo (fun _ => some "bad") 10
        ⟨11, some ⟨7, "no links here"⟩⟩ =
      some ((7, "下载失败, url: " ++ "no links here" ++ ",err: " ++ "bad"),
        if (11 : Int) > 10 then 11 else 10) :=
  (c10_getUrl_first_or_whole "no links here").2.2 (fun _ => some "bad")
    10 7 11 "bad" rfl rfl

/-- C1: when every attempt fails, `runDownloadWithRetry` performs exactly 3
attempts, sleeps the fixed 5-second backoff between attempts 1 and 2 and
between attempts 2 and 3 but not after attempt 3, and returns a final error
wrapping the last underlying error and referencing 3 attempts. -/
theorem c1_retry_all_attempts_fail (dl : Nat → Option String) (url : String)
    (chatID : Int) (e1 e2 e3 : String) (h0 : dl 0 = some e1)
    (h1 : dl 1 = some e2) (h2 : dl 2 = some e3) :
    runDownloadWithRetry dl url chatID =
      ([.attemptStart 1, .notify chatID (retryText 1 url e1), .sleep 5,
        .attemptStart 2, .notify chatID (retryText 2 url e2), .sleep 5,
        .attemptStart 3],
       some ("下载最终失败, 经过 3 次尝试: " ++ e3)) ∧
    countAttempts (runDownloadWithRetry dl url chatID).1 = 3 ∧
    countSleeps (runDownloadWithRetry dl url chatID).1 = 2 := by
  have h : runDownloadWithRetry dl url chatID =
      ([.attemptStart 1, .notify chatID (retryText 1 url e1), .sleep 5,
        .attemptStart 2, .notify chatID (retryText 2 url e2), .sleep 5,
        .attemptStart 3],
       some ("下载最终失败, 经过 3 次尝试: " ++ e3)) := by
    simp [runDownloadWithRetry, retryLoop, h0, h1, h2, maxRetries,
      finalErrText, goWrapErr, goSprintfNat, natToDigitsAux, digitChar]
  refine ⟨h, ?_, ?_⟩ <;> rw [h] <;> rfl

/-- C1 witness: the all-fail trace at a concrete oracle, URL and chat id. -/
theorem c1_witness :
    runDownloadWithRetry (fun _ => some "boom") "https://example.com/a" 7 =
      ([.attemptStart 1,
        .notify 7 (retryText 1 "https://example.com/a" "boom"), .sleep 5,
        .attemptStart 2,
        .notify 7 (retryText 2 "https://example.com/a" "boom"), .sleep 5,
        .attemptStart 3],
       some ("下载最终失败, 经过 3 次尝试: " ++ "boom")) :=
  (c1_retry_all_attempts_fail (fun _ => some "boom") "https://example.com/a" 7
    "boom" "boom" "boom" rfl rfl rfl).1

/-- C5: when the first attempt fails and the second succeeds,
`runDownloadWithRetry` performs exactly 2 attempts, returns success, and the
trace holds exactly one retry notification (attempt 1) and one success
notification tagged with attempt 2, with nothing after the success. -/
theorem c5_retry_fail_once_then_succeed (dl : Nat → Option String)
    (url : String) (chatID : Int) (e1 : String) (h0 : dl 0 = some e1)
    (h1 : dl 1 = none) :
    runDownloadWithRetry dl url chatID =
      ([.attemptStart 1, .notify chatID (retryText 1 url e1), .sleep 5,
        .attemptStart 2, .notify chatID (successText 2 url)], none) ∧
    countAttempts (runDownloadWithRetry dl url chatID).1 = 2 := by
  have h : runDownloadWithRetry dl url chatID =
      ([.attemptStart 1, .notify chatID (retryText 1 url e1), .sleep 5,
        .attemptStart 2, .notify chatID (successText 2 url)], none) := by
    simp [runDownloadWithRetry, retryLoop, h0, h1, maxRetries]
  refine ⟨h, ?_⟩
  rw [h]
  rfl

/-- C5 witness: the fail-then-succeed trace at a concrete oracle. -/
theorem c5_witness :
    runDownloadWithRetry (fun i => if i = 0 then some "oops" else none)
        "https://example.com/b" 9 =
      ([.attemptStart 1, .notify 9 (retryText 1 "https://example.com/b" "oops"),
        .sleep 5, .attemptStart 2,
        .notify 9 (successText 2 "https://example.com/b")], none) :=
  (c5_retry_fail_once_then_succeed (fun i => if i = 0 then some "oops" else none)
    "https://example.com/b" 9 "oops" rfl rfl).1

/-- C7: `getUpdates` requests messages with offset `lastUpdateID + 1`; at
persisted checkpoint 42 the fetch URL carries `offset=43`, and under the
messaging-API contract that returned ids are at least the offset, no update
with id at most the checkpoint is ever in a fetched batch. -/
theorem c7_fetch_offset (token : String) (lastUpdateID : Int) :
    getUpdatesOffset lastUpdateID = lastUpdateID + 1 ∧
    getUpdatesURL token lastUpdateID =
      "https://api.telegram.org/bot" ++ token ++ "/getUpdates?offset=" ++
        goSprintfInt (lastUpdateID + 1) ++ "&timeout=30" ∧
    getUpdatesURL token 42 =
      "https://api.telegram.org/bot" ++ token ++
        "/getUpdates?offset=43&timeout=30" ∧
    ∀ updates : List Update,
      (∀ u ∈ updates, getUpdatesOffset lastUpdateID ≤ u.updateID) →
      ∀ u ∈ updates, ¬ u.updateID ≤ lastUpdateID := by
  refine ⟨rfl, rfl, ?_, ?_⟩
  · show "https://api.telegram.org/bot" ++ token ++ "/getUpdates?offset=" ++
        goSprintfInt (42 + 1) ++ "&timeout=30" = _
    have h43 : goSprintfInt (42 + 1) = "43" := rfl
    rw [h43, String.append_assoc, String.append_assoc, String.append_assoc]
    rfl
  · intro updates hall u hu hle
    have := hall u hu
    simp only [getUpdatesOffset] at this
    omega

/-- C7 witness: at checkpoint 42 the fetch URL carries `offset=43`, and an
update of id 43 in a contract-satisfying batch has id strictly above 42. -/
theorem c7_witness :
    getUpdatesURL "T" 42 =
      "https://api.telegram.org/bot" ++ "T" ++
        "/getUpdates?offset=43&timeout=30" ∧
    ¬ (⟨43, none⟩ : Update).updateID ≤ 42 := by
  have h := c7_fetch_offset "T" 42
  exact ⟨h.2.2.1, h.2.2.2 [⟨43, none⟩] (by decide) ⟨43, none⟩ (by decide)⟩

/-! Helper lemmas for the checkpoint discipline of the main loop. -/

theorem ite_gt_eq_max (a b : Int) : (if b > a then b else a) = max a b := by
  rcases le_or_lt b a with h | h
  · rw [if_neg (not_lt.mpr h), max_eq_left h]
  · rw [if_pos h, max_eq_right h.le]

theorem foldl_processUpdateStep_snd (dl : String → Nat → Option String) :
    ∀ (updates : List Update) (evs : List RetryEvent) (i : Int),
      (updates.foldl (processUpdateStep dl) (evs, i)).2 =
        updates.foldl (fun a u => max a u.updateID) i := by
  intro updates
  induction updates with
  | nil => intro evs i; rfl
  | cons u us ih =>
    intro evs i
    simp only [List.foldl_cons]
    rw [show processUpdateStep dl (evs, i) u =
        ((evs, i).1 ++ _, if u.updateID > i then u.updateID else i) from rfl]
    rw [ih, ite_gt_eq_max]

theorem le_foldl_max :
    ∀ (updates : List Update) (i : Int),
      i ≤ updates.foldl (fun a u => max a u.updateID) i
  | [], i => le_refl i
  | u :: us, i =>
    le_trans (le_max_left i u.updateID) (le_foldl_max us (max i u.updateID))

theorem mem_le_foldl_max :
    ∀ (updates : List Update) (i : Int), ∀ u ∈ updates,
      u.updateID ≤ updates.foldl (fun a u => max a u.updateID) i := by
  intro updates
  induction updates with
  | nil => intro i u hu; exact absurd hu (List.not_mem_nil u)
  | cons v us ih =>
    intro i u hu
    rcases List.mem_cons.mp hu with rfl | h
    · exact le_trans (le_max_right i u.updateID) (le_foldl_max us _)
    · exact ih _ u h

/-- C2: one main-loop iteration advances the checkpoint to the maximum of the
incoming checkpoint and every update id in the batch, independently of the
download oracle (so of any download failure), persists exactly that value,
and every message of the batch — failed downloads included — lies strictly
below the next fetch offset, so it is never re-fetched. -/
theorem c2_checkpoint_advances (dl dl' : String → Nat → Option String)
    (lastUpdateID : Int) (updates : List Update) :
    (mainLoopIteration dl lastUpdateID updates).2.1 =
        updates.foldl (fun a u => max a u.updateID) lastUpdateID ∧
    (mainLoopIteration dl lastUpdateID updates).2.1 =
        (mainLoopIteration dl' lastUpdateID updates).2.1 ∧
    (mainLoopIteration dl lastUpdateID updates).2.2 =
        saveLastUpdateID (mainLoopIteration dl lastUpdateID updates).2.1 ∧
    lastUpdateID ≤ (mainLoopIteration dl lastUpdateID updates).2.1 ∧
    (∀ u ∈ updates,
      u.updateID ≤ (mainLoopIteration dl lastUpdateID updates).2.1) ∧
    (∀ u ∈ updates,
      u.updateID <
        getUpdatesOffset (mainLoopIteration dl lastUpdateID updates).2.1) := by
  have key : ∀ d : String → Nat → Option String,
      (mainLoopIteration d lastUpdateID updates).2.1 =
        updates.foldl (fun a u => max a u.updateID) lastUpdateID := by
    intro d
    show (updates.foldl (processUpdateStep d) ([], lastUpdateID)).2 = _
    exact foldl_processUpdateStep_snd d updates [] lastUpdateID
  refine ⟨key dl, (key dl).trans (key dl').symm, rfl, ?_, ?_, ?_⟩
  · rw [key dl]; exact le_foldl_max updates lastUpdateID
  · intro u hu; rw [key dl]; exact mem_le_foldl_max updates lastUpdateID u hu
  · intro u hu
    have := mem_le_foldl_max updates lastUpdateID u hu
    rw [key dl]
    simp only [getUpdatesOffset]
    omega

/-- C2 witness: a one-message batch whose only download fails on all attempts
still advances the checkpoint from 10 to 12, the same value an all-success
oracle produces, and the message id stays below the next fetch offset. -/
theorem c2_witness :
    (mainLoopIteration (fun _ _ => some "err") 10
        [⟨12, some ⟨7, "x https://a.b/c"⟩⟩]).2.1 =
      [(⟨12, some ⟨7, "x https://a.b/c"⟩⟩ : Update)].foldl
        (fun a u => max a u.updateID) 10 ∧
    (mainLoopIteration (fun _ _ => some "err") 10
        [⟨12, some ⟨7, "x https://a.b/c"⟩⟩]).2.1 =
      (mainLoopIteration (fun _ _ => none) 10
        [⟨12, some ⟨7, "x https://a.b/c"⟩⟩]).2.1 ∧
    (⟨12, some ⟨7, "x https://a.b/c"⟩⟩ : Update).updateID <
      getUpdatesOffset (mainLoopIteration (fun _ _ => some "err") 10
        [⟨12, some ⟨7, "x https://a.b/c"⟩⟩]).2.1 := by
  have h := c2_checkpoint_advances (fun _ _ => some "err") (fun _ _ => none)
    10 [⟨12, some ⟨7, "x https://a.b/c"⟩⟩]
  exact ⟨h.1, h.2.1, h.2.2.2.2.2 ⟨12, some ⟨7, "x https://a.b/c"⟩⟩
    (List.mem_singleton.mpr rfl)⟩

end XhsBot
